import Mathlib

/-!
Verification of the generic-view layer of pyramid-restful-framework.

The repository supplies REST-style generic view classes (`GenericAPIView`
and verb mixins), a field-equality filter strategy, and a pagination base
contract.  `pyramid_restful/pagination/base.py` is embedded directly from
its source; the `generics`/`filters` modules are modelled from the
specification (their tests in `tests/test_generics.py` pin the behaviour).
-/

namespace PyramidRestful

/-- A model (ORM entity) reference: its table name and the name of its
primary-key column.  Modelled from the spec: the view configuration holds
"a target entity/model reference" whose primary key is the default lookup
column. -/
structure Model where
  name : String
  pk : String
deriving DecidableEq, Repr

/-- A single row of a model's table: an attribute-name/value association
list.  Modelled from the spec: rows are opaque instances fetched by the
ORM collaborator. -/
structure Row where
  attrs : List (String × String)
deriving DecidableEq, Repr

/-- Row attribute access, used by equality filtering. -/
def Row.getAttr (r : Row) (f : String) : Option String :=
  r.attrs.lookup f

/-- Modelled from the spec: "an opaque, composable query handle from the
ORM collaborator"; it supports `all`, a single-row fetch and equality
filtering, and is scoped to one model. -/
structure Query where
  model : Model
  rows : List Row
deriving DecidableEq, Repr

/-- `query.all()`: fetch every row of the query. -/
def Query.all (q : Query) : List Row :=
  q.rows

/-- `query.filter(column == value)`: narrow the query to the rows whose
attribute `f` equals `v`. -/
def Query.filterEq (q : Query) (f v : String) : Query :=
  Query.mk q.model (q.rows.filter fun r => r.getAttr f == some v)

/-- The request-scoped database session: a mapping from models to their
table contents.  Modelled from the spec: the session can "construct a
query over a model". -/
structure DBSession where
  tables : List (Model × List Row)
deriving DecidableEq, Repr

/-- `dbsession.query(model)`: the default query over `m`, containing the
rows of `m`'s table. -/
def DBSession.query (s : DBSession) (m : Model) : Query :=
  Query.mk m ((s.tables.lookup m).getD [])

/-- The web framework request object.  Modelled from the spec: it exposes
`params` (query-string key/value mapping) and an attached database
session. -/
structure Request where
  params : List (String × String)
  dbsession : DBSession
deriving DecidableEq, Repr

/-- A schema/validation class, identified by name; the external
collaborator contract only requires it to be constructible with a context
mapping. -/
structure SchemaClass where
  name : String
deriving DecidableEq, Repr

/-- A schema instance: its class together with the context mapping it was
constructed with (the view puts the current request under key
`request`). -/
structure SchemaInstance where
  schema_class : SchemaClass
  context : List (String × Request)

/-- Modelled from the spec: a pagination strategy instance, providing
`paginate_query(queryset, request)` and `get_paginated_response(data)`.
`π` is the strategy's page/response data type (opaque to the view). -/
structure Paginator (π : Type) where
  paginate_query : Query → Request → π
  get_paginated_response : π → π

/-- The available filter strategy classes; `FieldFilter` is the one the
repository ships. -/
inductive FilterClass where
  | fieldFilter
deriving DecidableEq, Repr

/-- Errors a view helper can signal: the assertion-style configuration
fault of `get_query`, the `HTTPNotFound` (404) condition of `get_object`,
and the multiple-rows violation of the single-row fetch. -/
inductive ViewError where
  | assertionError
  | httpNotFound
  | multipleResults
deriving DecidableEq, Repr

/-- Modelled from the spec: `GenericAPIView` — per-view configuration
(model, schema class, optional paginator, filter classes, filter-field
allow-list, lookup column) plus the request-scoped state (request,
URL-derived lookup keyword arguments).  Method overrides in subclasses
are represented as optional override fields. -/
structure View (π : Type) where
  model : Option Model
  schema_class : Option SchemaClass
  paginator : Option (Paginator π)
  filter_classes : List FilterClass
  filter_fields : List String
  lookup_column : Option (Model × String)
  get_query_override : Option (Request → Query)
  schema_class_override : Option SchemaClass
  request : Request
  lookup_url_kwargs : List (String × String)

/-- Modelled from the spec: `get_query()` returns the default query over
the configured model from the request's database session; it fails with a
configuration error (assertion-style) if no model is configured and the
method is not overridden. -/
def View.get_query {π : Type} (v : View π) : Except ViewError Query :=
  match v.get_query_override with
  | some f => Except.ok (f v.request)
  | none =>
    match v.model with
    | some m => Except.ok (v.request.dbsession.query m)
    | none => Except.error ViewError.assertionError

/-- Modelled from the spec: the lookup column resolved by `get_object()` —
the overriding `lookup_column`'s attribute if one is configured, else the
configured model's primary key. -/
def View.lookup_attr {π : Type} (v : View π) : Option String :=
  match v.lookup_column with
  | some mc => some mc.2
  | none => v.model.map Model.pk

/-- Modelled from the spec: `get_object()` resolves the (lookup column,
value) pair from `lookup_url_kwargs`, executes a single-row fetch against
the query, and signals a not-found failure (HTTP 404-equivalent) if no
row matches. -/
def View.get_object {π : Type} (v : View π) : Except ViewError Row :=
  match v.get_query with
  | Except.error e => Except.error e
  | Except.ok q =>
    match v.lookup_attr with
    | none => Except.error ViewError.httpNotFound
    | some c =>
      match v.lookup_url_kwargs.lookup c with
      | none => Except.error ViewError.httpNotFound
      | some val =>
        match (q.filterEq c val).all with
        | [] => Except.error ViewError.httpNotFound
        | [r] => Except.ok r
        | _ :: _ :: _ => Except.error ViewError.multipleResults

/-- Modelled from the spec: recognise request parameter keys of the shape
`filter[<field>]`, yielding the field name. -/
def parseFilterParam (k : String) : Option String :=
  let cs := k.data
  if cs.take 7 == "filter[".data && cs.getLast? == some ']' then
    some (String.mk ((cs.drop 7).dropLast))
  else
    none

/-- Modelled from the spec: one `FieldFilter` step — translate a single
request parameter into an equality predicate on the corresponding column
when its key has the shape `filter[<field>]` and the field is in the
allow-list; undeclared fields and other keys are ignored. -/
def fieldFilterStep (fields : List String) (q : Query)
    (kv : String × String) : Query :=
  match parseFilterParam kv.1 with
  | some f => if fields.contains f then q.filterEq f kv.2 else q
  | none => q

/-- Modelled from the spec: the `FieldFilter` strategy translates each
request parameter `filter[<field>]=<value>` into an equality predicate on
the corresponding column, restricted to the `filter_fields` allow-list;
undeclared fields are ignored and multiple filters compose with AND. -/
def fieldFilterQuery (fields : List String) (params : List (String × String))
    (q : Query) : Query :=
  params.foldl (fieldFilterStep fields) q

/-- Modelled from the spec: application of one configured filter strategy
class to a query, given the view's configuration and request. -/
def View.applyFilter {π : Type} (v : View π) (q : Query) :
    FilterClass → Query
  | FilterClass.fieldFilter => fieldFilterQuery v.filter_fields v.request.params q

/-- Modelled from the spec: `filter_query(query)` applies each configured
filter strategy in sequence, in declared filter-class order, based on
request parameters. -/
def View.filter_query {π : Type} (v : View π) (q : Query) : Query :=
  v.filter_classes.foldl v.applyFilter q

/-- Modelled from the spec: `paginate_query(query)` delegates to the
configured paginator's `paginate_query`, and returns `None` (performing
no operation) if no paginator is configured. -/
def View.paginate_query {π : Type} (v : View π) (q : Query) : Option π :=
  match v.paginator with
  | some p => some (p.paginate_query q v.request)
  | none => none

/-- Modelled from the spec: `get_schema_class()` returns the overridden
schema class when a subclass overrides the method, else the configured
`schema_class` attribute. -/
def View.get_schema_class {π : Type} (v : View π) : Option SchemaClass :=
  match v.schema_class_override with
  | some sc => some sc
  | none => v.schema_class

/-- Modelled from the spec: `get_schema()` instantiates the configured (or
overridden) schema class with the current request attached to its context
under key `request`. -/
def View.get_schema {π : Type} (v : View π) : Option SchemaInstance :=
  (v.get_schema_class).map fun sc =>
    SchemaInstance.mk sc [("request", v.request)]

/-- The class of the schema instance `get_schema()` produced, if any. -/
def schemaClassOf (o : Option SchemaInstance) : Option SchemaClass :=
  o.map SchemaInstance.schema_class

/-- The request stored under key `request` in the context of the schema
instance `get_schema()` produced, if any. -/
def schemaRequestOf (o : Option SchemaInstance) : Option Request :=
  o.bind fun i => i.context.lookup "request"

/-- A recorded lifecycle-method invocation: the request and the
positional and keyword arguments it received, as the tests' mock views
record them. -/
structure Call (ρ α : Type) where
  request : ρ
  args : List α
  kwargs : List (String × α)
deriving DecidableEq, Repr

/-- Modelled from the spec: `CreateAPIView` binds POST to the abstract
`create` lifecycle method.  `ρ` is the request type, `α` the argument
type, `β` the lifecycle method's result type. -/
structure CreateAPIView (ρ α β : Type) where
  create : ρ → List α → List (String × α) → β

/-- `CreateAPIView.post` delegates to `create`. -/
def CreateAPIView.post {ρ α β : Type} (v : CreateAPIView ρ α β)
    (request : ρ) (args : List α) (kwargs : List (String × α)) : β :=
  v.create request args kwargs

/-- Modelled from the spec: `ListAPIView` binds GET to `list`. -/
structure ListAPIView (ρ α β : Type) where
  list : ρ → List α → List (String × α) → β

/-- `ListAPIView.get` delegates to `list`. -/
def ListAPIView.get {ρ α β : Type} (v : ListAPIView ρ α β)
    (request : ρ) (args : List α) (kwargs : List (String × α)) : β :=
  v.list request args kwargs

/-- Modelled from the spec: `RetrieveAPIView` binds GET to `retrieve`. -/
structure RetrieveAPIView (ρ α β : Type) where
  retrieve : ρ → List α → List (String × α) → β

/-- `RetrieveAPIView.get` delegates to `retrieve`. -/
def RetrieveAPIView.get {ρ α β : Type} (v : RetrieveAPIView ρ α β)
    (request : ρ) (args : List α) (kwargs : List (String × α)) : β :=
  v.retrieve request args kwargs

/-- Modelled from the spec: `UpdateAPIView` binds PUT to `update` and
PATCH to `partialUpdate` (the source's `partial_update`), as distinct
bindings. -/
structure UpdateAPIView (ρ α β : Type) where
  update : ρ → List α → List (String × α) → β
  partialUpdate : ρ → List α → List (String × α) → β

/-- `UpdateAPIView.put` delegates to `update`. -/
def UpdateAPIView.put {ρ α β : Type} (v : UpdateAPIView ρ α β)
    (request : ρ) (args : List α) (kwargs : List (String × α)) : β :=
  v.update request args kwargs

/-- `UpdateAPIView.patch` delegates to `partialUpdate`. -/
def UpdateAPIView.patch {ρ α β : Type} (v : UpdateAPIView ρ α β)
    (request : ρ) (args : List α) (kwargs : List (String × α)) : β :=
  v.partialUpdate request args kwargs

/-- Modelled from the spec: `DestroyAPIView` binds DELETE to `destroy`. -/
structure DestroyAPIView (ρ α β : Type) where
  destroy : ρ → List α → List (String × α) → β

/-- `DestroyAPIView.delete` delegates to `destroy`. -/
def DestroyAPIView.delete {ρ α β : Type} (v : DestroyAPIView ρ α β)
    (request : ρ) (args : List α) (kwargs : List (String × α)) : β :=
  v.destroy request args kwargs

/-- Modelled from the spec: `ListCreateAPIView` binds GET to `list` and
POST to `create`. -/
structure ListCreateAPIView (ρ α β : Type) where
  list : ρ → List α → List (String × α) → β
  create : ρ → List α → List (String × α) → β

/-- `ListCreateAPIView.get` delegates to `list`. -/
def ListCreateAPIView.get {ρ α β : Type} (v : ListCreateAPIView ρ α β)
    (request : ρ) (args : List α) (kwargs : List (String × α)) : β :=
  v.list request args kwargs

/-- `ListCreateAPIView.post` delegates to `create`. -/
def ListCreateAPIView.post {ρ α β : Type} (v : ListCreateAPIView ρ α β)
    (request : ρ) (args : List α) (kwargs : List (String × α)) : β :=
  v.create request args kwargs

/-- Modelled from the spec: `RetrieveUpdateAPIView` binds GET to
`retrieve`, PUT to `update`, PATCH to `partialUpdate`. -/
structure RetrieveUpdateAPIView (ρ α β : Type) where
  retrieve : ρ → List α → List (String × α) → β
  update : ρ → List α → List (String × α) → β
  partialUpdate : ρ → List α → List (String × α) → β

/-- `RetrieveUpdateAPIView.get` delegates to `retrieve`. -/
def RetrieveUpdateAPIView.get {ρ α β : Type} (v : RetrieveUpdateAPIView ρ α β)
    (request : ρ) (args : List α) (kwargs : List (String × α)) : β :=
  v.retrieve request args kwargs

/-- `RetrieveUpdateAPIView.put` delegates to `update`. -/
def RetrieveUpdateAPIView.put {ρ α β : Type} (v : RetrieveUpdateAPIView ρ α β)
    (request : ρ) (args : List α) (kwargs : List (String × α)) : β :=
  v.update request args kwargs

/-- `RetrieveUpdateAPIView.patch` delegates to `partialUpdate`. -/
def RetrieveUpdateAPIView.patch {ρ α β : Type} (v : RetrieveUpdateAPIView ρ α β)
    (request : ρ) (args : List α) (kwargs : List (String × α)) : β :=
  v.partialUpdate request args kwargs

/-- Modelled from the spec: `RetrieveDestroyAPIView` binds GET to
`retrieve` and DELETE to `destroy`. -/
structure RetrieveDestroyAPIView (ρ α β : Type) where
  retrieve : ρ → List α → List (String × α) → β
  destroy : ρ → List α → List (String × α) → β

/-- `RetrieveDestroyAPIView.get` delegates to `retrieve`. -/
def RetrieveDestroyAPIView.get {ρ α β : Type} (v : RetrieveDestroyAPIView ρ α β)
    (request : ρ) (args : List α) (kwargs : List (String × α)) : β :=
  v.retrieve request args kwargs

/-- `RetrieveDestroyAPIView.delete` delegates to `destroy`. -/
def RetrieveDestroyAPIView.delete {ρ α β : Type} (v : RetrieveDestroyAPIView ρ α β)
    (request : ρ) (args : List α) (kwargs : List (String × α)) : β :=
  v.destroy request args kwargs

/-- Modelled from the spec: `RetrieveUpdateDestroyAPIView` binds GET to
`retrieve`, PUT to `update`, PATCH to `partialUpdate`, DELETE to
`destroy`. -/
structure RetrieveUpdateDestroyAPIView (ρ α β : Type) where
  retrieve : ρ → List α → List (String × α) → β
  update : ρ → List α → List (String × α) → β
  partialUpdate : ρ → List α → List (String × α) → β
  destroy : ρ → List α → List (String × α) → β

/-- `RetrieveUpdateDestroyAPIView.get` delegates to `retrieve`. -/
def RetrieveUpdateDestroyAPIView.get {ρ α β : Type}
    (v : RetrieveUpdateDestroyAPIView ρ α β)
    (request : ρ) (args : List α) (kwargs : List (String × α)) : β :=
  v.retrieve request args kwargs

/-- `RetrieveUpdateDestroyAPIView.put` delegates to `update`. -/
def RetrieveUpdateDestroyAPIView.put {ρ α β : Type}
    (v : RetrieveUpdateDestroyAPIView ρ α β)
    (request : ρ) (args : List α) (kwargs : List (String × α)) : β :=
  v.update request args kwargs

/-- `RetrieveUpdateDestroyAPIView.patch` delegates to `partialUpdate`. -/
def RetrieveUpdateDestroyAPIView.patch {ρ α β : Type}
    (v : RetrieveUpdateDestroyAPIView ρ α β)
    (request : ρ) (args : List α) (kwargs : List (String × α)) : β :=
  v.partialUpdate request args kwargs

/-- `RetrieveUpdateDestroyAPIView.delete` delegates to `destroy`. -/
def RetrieveUpdateDestroyAPIView.delete {ρ α β : Type}
    (v : RetrieveUpdateDestroyAPIView ρ α β)
    (request : ρ) (args : List α) (kwargs : List (String × α)) : β :=
  v.destroy request args kwargs

/-- The failure signalled by the unimplemented `BasePagination` methods:
Python's `NotImplementedError`, carrying its message. -/
inductive PaginationError where
  | notImplemented (msg : String)
deriving DecidableEq, Repr

/-- The message of the `NotImplementedError` raised by
`BasePagination.paginate_query` (from
`pyramid_restful/pagination/base.py`). -/
def paginateQueryMessage : String :=
  "paginate_queryset() must be implemented."

/-- The message of the `NotImplementedError` raised by
`BasePagination.get_paginated_response` (from
`pyramid_restful/pagination/base.py`). -/
def getPaginatedResponseMessage : String :=
  "get_paginated_response() must be implemented."

/-- `BasePagination` from `pyramid_restful/pagination/base.py`: the
stateless abstract pagination contract. -/
structure BasePagination where

/-- `BasePagination.paginate_query(self, queryset, request)`: raises
`NotImplementedError('paginate_queryset() must be implemented.')`.  The
result type `β` is arbitrary: the method never produces a value. -/
def BasePagination.paginate_query (β : Type) (self : BasePagination)
    (queryset : Query) (request : Request) : Except PaginationError β :=
  Except.error (PaginationError.notImplemented paginateQueryMessage)

/-- `BasePagination.get_paginated_response(self, data)`: raises
`NotImplementedError('get_paginated_response() must be implemented.')`. -/
def BasePagination.get_paginated_response (α β : Type) (self : BasePagination)
    (data : α) : Except PaginationError β :=
  Except.error (PaginationError.notImplemented getPaginatedResponseMessage)

/-- The `User` model of the test suite: table `user`, primary key `id`. -/
def userModel : Model :=
  Model.mk "user" "id"

/-- The first fixture row: `User(id=1, name='testing')`. -/
def user1 : Row :=
  Row.mk [("id", "1"), ("name", "testing")]

/-- The second fixture row: `User(id=2, name='testing 2')`. -/
def user2 : Row :=
  Row.mk [("id", "2"), ("name", "testing 2")]

/-- The test database session, holding the two fixture users. -/
def testSession : DBSession :=
  DBSession.mk [(userModel, [user1, user2])]

/-- A test request with the given query-string parameters, carrying the
test database session. -/
def testRequest (params : List (String × String)) : Request :=
  Request.mk params testSession

/-- The `UserSchema` class of the test suite. -/
def userSchema : SchemaClass :=
  SchemaClass.mk "UserSchema"

/-- The test suite's `UserAPIView` (model, schema, field filter on
`name`), parameterised by request parameters and lookup kwargs, with no
paginator.  The paginator-bearing variants are built from it below. -/
def userAPIView (params kwargs : List (String × String)) : View Unit :=
  View.mk (some userModel) (some userSchema) none [FilterClass.fieldFilter]
    ["name"] none none none (testRequest params) kwargs

/-- A recording paginator: its page type is the list of
(query, request) calls it received, and each invocation contributes
exactly one record — the Lean counterpart of the test's `mock.Mock()`. -/
def recordingPaginator : Paginator (List (Query × Request)) :=
  Paginator.mk (fun q r => [(q, r)]) id

/-- The test suite's `UserAPIView` with its mock paginator attached. -/
def userAPIViewPaginated : View (List (Query × Request)) :=
  View.mk (some userModel) (some userSchema) (some recordingPaginator)
    [FilterClass.fieldFilter] ["name"] none none none (testRequest []) []

/-- The test suite's `UserOverrideView`: overridden `get_query` and
`get_schema_class`, explicit `lookup_column`, no paginator. -/
def userOverrideView : View Unit :=
  View.mk (some userModel) none none [] [] (some (userModel, "id"))
    (some fun r => r.dbsession.query userModel) (some userSchema)
    (testRequest []) []

/-- A bare `GenericAPIView` with no model and no overrides, as in the
`test_missing_model` test. -/
def bareView : View Unit :=
  View.mk none none none [] [] none none none (testRequest []) []

/-- Claim C2: for a view with a configured model and no `get_query`
override, `get_query()` returns the query over that model obtained from
the request's database session, and that query is scoped to the model. -/
theorem get_query_with_model {π : Type} (v : View π) (m : Model)
    (hov : v.get_query_override = none) (hm : v.model = some m) :
    v.get_query = Except.ok (v.request.dbsession.query m) ∧
    (v.request.dbsession.query m).model = m := by
  constructor
  · unfold View.get_query
    rw [hov, hm]
  · rfl

/-- Claim C3: for a view with neither a configured model nor a `get_query`
override, `get_query()` fails with the assertion-style configuration
error; it never returns a default query. -/
theorem get_query_missing_model {π : Type} (v : View π)
    (hov : v.get_query_override = none) (hm : v.model = none) :
    v.get_query = Except.error ViewError.assertionError := by
  unfold View.get_query
  rw [hov, hm]

/-- Witness for C2 at the test fixture `UserAPIView`. -/
theorem get_query_with_model_witness :
    (userAPIView [] []).get_query = Except.ok (testSession.query userModel) ∧
    (testSession.query userModel).model = userModel :=
  get_query_with_model (userAPIView [] []) userModel rfl rfl

/-- Witness for C3 at a bare `GenericAPIView` with no model. -/
theorem get_query_missing_model_witness :
    bareView.get_query = Except.error ViewError.assertionError :=
  get_query_missing_model bareView rfl rfl

/-- Claim C1: when the resolved lookup column/value pair matches exactly
one row of the view's query, `get_object()` returns that row; when it
matches no row, `get_object()` signals the recoverable `HTTPNotFound`
condition (HTTP 404), not a fatal error. -/
theorem get_object_spec {π : Type} (v : View π) (q : Query) (c val : String)
    (r : Row)
    (hq : v.get_query = Except.ok q)
    (hc : v.lookup_attr = some c)
    (hval : v.lookup_url_kwargs.lookup c = some val) :
    ((q.filterEq c val).all = [r] → v.get_object = Except.ok r) ∧
    ((q.filterEq c val).all = [] →
      v.get_object = Except.error ViewError.httpNotFound) := by
  constructor <;> intro h <;>
    simp only [View.get_object, hq, hc, hval, h]

/-- Witness for C1: `{'id': 1}` fetches the first fixture user and
`{'id': 3}` is not found. -/
theorem get_object_spec_witness :
    (userAPIView [] [("id", "1")]).get_object = Except.ok user1 ∧
    (userAPIView [] [("id", "3")]).get_object
      = Except.error ViewError.httpNotFound := by
  constructor
  · exact (get_object_spec (userAPIView [] [("id", "1")])
      (testSession.query userModel) "id" "1" user1 rfl rfl rfl).1 (by decide)
  · exact (get_object_spec (userAPIView [] [("id", "3")])
      (testSession.query userModel) "id" "3" user1 rfl rfl rfl).2 (by decide)

/-- Claim C4: `paginate_query` with no paginator configured returns `None`
(no operation, no failure); with a paginator configured it delegates to
the paginator's `paginate_query` on the query and current request — and
with the recording paginator the delegation trace holds exactly one
call, carrying the arguments unchanged. -/
theorem paginate_query_spec {π : Type} (v : View π) (q : Query) :
    (v.paginator = none → v.paginate_query q = none) ∧
    (∀ p : Paginator π, v.paginator = some p →
      v.paginate_query q = some (p.paginate_query q v.request)) ∧
    (∀ (w : View (List (Query × Request))) (pq : Query),
      w.paginator = some recordingPaginator →
      w.paginate_query pq = some [(pq, w.request)]) := by
  refine ⟨?_, ?_, ?_⟩
  · intro h
    unfold View.paginate_query
    rw [h]
  · intro p h
    unfold View.paginate_query
    rw [h]
  · intro w pq h
    unfold View.paginate_query
    rw [h]
    rfl

/-- Witness for C4: the override view has no paginator and yields `None`;
the paginated view delegates exactly once to its recording paginator. -/
theorem paginate_query_spec_witness :
    userOverrideView.paginate_query (testSession.query userModel) = none ∧
    userAPIViewPaginated.paginate_query (testSession.query userModel)
      = some [(testSession.query userModel, testRequest [])] := by
  constructor
  · exact (paginate_query_spec userOverrideView
      (testSession.query userModel)).1 rfl
  · exact (paginate_query_spec userAPIViewPaginated
      (testSession.query userModel)).2.2 userAPIViewPaginated
      (testSession.query userModel) rfl

/-- Helper: the `FieldFilter` step is the identity when the allow-list of
filterable fields is empty. -/
theorem fieldFilterStep_nil_fields (q : Query) (kv : String × String) :
    fieldFilterStep [] q kv = q := by
  unfold fieldFilterStep
  cases parseFilterParam kv.1 <;> rfl

/-- Helper: `FieldFilter` leaves the query unchanged when the allow-list
of filterable fields is empty. -/
theorem fieldFilterQuery_nil_fields (params : List (String × String))
    (q : Query) :
    fieldFilterQuery [] params q = q := by
  induction params generalizing q with
  | nil => rfl
  | cons kv rest ih =>
    show fieldFilterQuery [] rest (fieldFilterStep [] q kv) = q
    rw [fieldFilterStep_nil_fields]
    exact ih q

/-- Helper: folding the view's filter classes over a query is the
identity when the allow-list of filterable fields is empty. -/
theorem foldl_applyFilter_nil_fields {π : Type} (v : View π)
    (hf : v.filter_fields = []) :
    ∀ (cs : List FilterClass) (q : Query), cs.foldl v.applyFilter q = q := by
  intro cs
  induction cs with
  | nil => intro q; rfl
  | cons c rest ih =>
    intro q
    show rest.foldl v.applyFilter (v.applyFilter q c) = q
    have hstep : v.applyFilter q c = q := by
      cases c
      show fieldFilterQuery v.filter_fields v.request.params q = q
      rw [hf]
      exact fieldFilterQuery_nil_fields _ _
    rw [hstep]
    exact ih q

/-- Claim C5: `filter_query` is the identity (pass-through) on every
query when no filter classes or no filter fields are configured — in
contrast with the absent-paginator case, where `paginate_query` returns
`None`. -/
theorem filter_query_passthrough {π : Type} (v : View π) (q : Query) :
    (v.filter_classes = [] → v.filter_query q = q) ∧
    (v.filter_fields = [] → v.filter_query q = q) ∧
    (v.paginator = none → v.paginate_query q = none) := by
  refine ⟨?_, ?_, ?_⟩
  · intro h
    unfold View.filter_query
    rw [h]
    rfl
  · intro h
    unfold View.filter_query
    exact foldl_applyFilter_nil_fields v h _ q
  · intro h
    unfold View.paginate_query
    rw [h]

/-- Witness for C5 at the override view (no filter classes, no filter
fields, no paginator). -/
theorem filter_query_passthrough_witness :
    userOverrideView.filter_query (testSession.query userModel)
      = testSession.query userModel ∧
    userOverrideView.paginate_query (testSession.query userModel) = none := by
  constructor
  · exact (filter_query_passthrough userOverrideView
      (testSession.query userModel)).1 rfl
  · exact (filter_query_passthrough userOverrideView
      (testSession.query userModel)).2.2 rfl

/-- Claim C6: with the `FieldFilter` strategy and a declared filter
field, a request parameter of the form `filter[<field>]=<value>` narrows
the query by equality on that field: exactly one matching row means
`filter_query(...).all()` returns exactly that row, no matching row
means it returns the empty sequence. -/
theorem filter_query_field_filter {π : Type} (v : View π) (q : Query)
    (k f val : String) (r : Row)
    (hq : v.get_query = Except.ok q)
    (hfc : v.filter_classes = [FilterClass.fieldFilter])
    (hff : v.filter_fields = [f])
    (hp : v.request.params = [(k, val)])
    (hk : parseFilterParam k = some f) :
    ((q.filterEq f val).all = [r] → (v.filter_query q).all = [r]) ∧
    ((q.filterEq f val).all = [] → (v.filter_query q).all = []) := by
  have hmain : v.filter_query q = q.filterEq f val := by
    unfold View.filter_query
    rw [hfc]
    show v.applyFilter q FilterClass.fieldFilter = q.filterEq f val
    show fieldFilterQuery v.filter_fields v.request.params q = q.filterEq f val
    rw [hff, hp]
    show fieldFilterStep [f] q (k, val) = q.filterEq f val
    unfold fieldFilterStep
    rw [hk]
    simp
  constructor <;> intro h <;> rw [hmain, h]

/-- Witness for C6: `filter[name]=testing` returns exactly the first
fixture user; `filter[name]=testing3` returns no rows. -/
theorem filter_query_field_filter_witness :
    ((userAPIView [("filter[name]", "testing")] []).filter_query
      (testSession.query userModel)).all = [user1] ∧
    ((userAPIView [("filter[name]", "testing3")] []).filter_query
      (testSession.query userModel)).all = [] := by
  constructor
  · exact (filter_query_field_filter
      (userAPIView [("filter[name]", "testing")] [])
      (testSession.query userModel) "filter[name]" "name" "testing" user1
      rfl rfl rfl rfl (by decide)).1 (by decide)
  · exact (filter_query_field_filter
      (userAPIView [("filter[name]", "testing3")] [])
      (testSession.query userModel) "filter[name]" "name" "testing3" user1
      rfl rfl rfl rfl (by decide)).2 (by decide)

/-- Claim C8: for a view with a configured (or overridden) schema class,
`get_schema()` returns an instance of that class whose context mapping
holds the current request under key `request`. -/
theorem get_schema_spec {π : Type} (v : View π) (sc : SchemaClass)
    (h : v.get_schema_class = some sc) :
    schemaClassOf v.get_schema = some sc ∧
    schemaRequestOf v.get_schema = some v.request := by
  unfold View.get_schema schemaClassOf schemaRequestOf
  rw [h]
  constructor <;> rfl

/-- Witness for C8 at both the configured view and the
`get_schema_class`-overriding view. -/
theorem get_schema_spec_witness :
    (schemaClassOf (userAPIView [] []).get_schema = some userSchema ∧
      schemaRequestOf (userAPIView [] []).get_schema
        = some (testRequest [])) ∧
    (schemaClassOf userOverrideView.get_schema = some userSchema ∧
      schemaRequestOf userOverrideView.get_schema
        = some (testRequest [])) := by
  constructor
  · exact get_schema_spec (userAPIView [] []) userSchema rfl
  · exact get_schema_spec userOverrideView userSchema rfl

/-- Claim C7: every verb mixin handler delegates to its bound lifecycle
method (per the binding table), passing the request and all positional
and keyword arguments through unchanged; with a recording lifecycle
method the call trace holds exactly one call carrying the unchanged
arguments; and `UpdateAPIView.put` and `UpdateAPIView.patch` are distinct
bindings (`update` versus `partialUpdate`). -/
theorem verb_mixin_bindings :
    (∀ (ρ α β : Type) (v : CreateAPIView ρ α β) (req : ρ) (args : List α)
        (kwargs : List (String × α)),
      v.post req args kwargs = v.create req args kwargs) ∧
    (∀ (ρ α β : Type) (v : ListAPIView ρ α β) (req : ρ) (args : List α)
        (kwargs : List (String × α)),
      v.get req args kwargs = v.list req args kwargs) ∧
    (∀ (ρ α β : Type) (v : RetrieveAPIView ρ α β) (req : ρ) (args : List α)
        (kwargs : List (String × α)),
      v.get req args kwargs = v.retrieve req args kwargs) ∧
    (∀ (ρ α β : Type) (v : UpdateAPIView ρ α β) (req : ρ) (args : List α)
        (kwargs : List (String × α)),
      v.put req args kwargs = v.update req args kwargs) ∧
    (∀ (ρ α β : Type) (v : UpdateAPIView ρ α β) (req : ρ) (args : List α)
        (kwargs : List (String × α)),
      v.patch req args kwargs = v.partialUpdate req args kwargs) ∧
    (∀ (ρ α β : Type) (v : DestroyAPIView ρ α β) (req : ρ) (args : List α)
        (kwargs : List (String × α)),
      v.delete req args kwargs = v.destroy req args kwargs) ∧
    (∀ (ρ α β : Type) (v : ListCreateAPIView ρ α β) (req : ρ) (args : List α)
        (kwargs : List (String × α)),
      v.get req args kwargs = v.list req args kwargs ∧
      v.post req args kwargs = v.create req args kwargs) ∧
    (∀ (ρ α β : Type) (v : RetrieveUpdateAPIView ρ α β) (req : ρ)
        (args : List α) (kwargs : List (String × α)),
      v.get req args kwargs = v.retrieve req args kwargs ∧
      v.put req args kwargs = v.update req args kwargs ∧
      v.patch req args kwargs = v.partialUpdate req args kwargs) ∧
    (∀ (ρ α β : Type) (v : RetrieveDestroyAPIView ρ α β) (req : ρ)
        (args : List α) (kwargs : List (String × α)),
      v.get req args kwargs = v.retrieve req args kwargs ∧
      v.delete req args kwargs = v.destroy req args kwargs) ∧
    (∀ (ρ α β : Type) (v : RetrieveUpdateDestroyAPIView ρ α β) (req : ρ)
        (args : List α) (kwargs : List (String × α)),
      v.get req args kwargs = v.retrieve req args kwargs ∧
      v.put req args kwargs = v.update req args kwargs ∧
      v.patch req args kwargs = v.partialUpdate req args kwargs ∧
      v.delete req args kwargs = v.destroy req args kwargs) ∧
    (∀ (ρ α : Type) (req : ρ) (args : List α) (kwargs : List (String × α)),
      (CreateAPIView.mk (fun r a k => [Call.mk r a k])).post req args kwargs
          = [Call.mk req args kwargs] ∧
      (ListAPIView.mk (fun r a k => [Call.mk r a k])).get req args kwargs
          = [Call.mk req args kwargs] ∧
      (RetrieveAPIView.mk (fun r a k => [Call.mk r a k])).get req args kwargs
          = [Call.mk req args kwargs] ∧
      (UpdateAPIView.mk (fun r a k => [Call.mk r a k])
          (fun r a k => [Call.mk r a k])).put req args kwargs
          = [Call.mk req args kwargs] ∧
      (UpdateAPIView.mk (fun r a k => [Call.mk r a k])
          (fun r a k => [Call.mk r a k])).patch req args kwargs
          = [Call.mk req args kwargs] ∧
      (DestroyAPIView.mk (fun r a k => [Call.mk r a k])).delete req args kwargs
          = [Call.mk req args kwargs]) ∧
    ((UpdateAPIView.mk (fun _ _ _ => 0) (fun _ _ _ => 1)
        : UpdateAPIView Unit Unit Nat).put () [] [] = 0 ∧
      (UpdateAPIView.mk (fun _ _ _ => 0) (fun _ _ _ => 1)
        : UpdateAPIView Unit Unit Nat).patch () [] [] = 1) := by
  refine ⟨?_, ?_, ?_, ?_, ?_, ?_, ?_, ?_, ?_, ?_, ?_, ?_⟩ <;> intros <;>
    first
      | exact ⟨rfl, rfl, rfl, rfl, rfl, rfl⟩
      | exact ⟨rfl, rfl, rfl, rfl⟩
      | exact ⟨rfl, rfl, rfl⟩
      | exact ⟨rfl, rfl⟩
      | rfl

/-- Claim C9: on every input, both `BasePagination.paginate_query` and
`BasePagination.get_paginated_response` fail by raising
`NotImplementedError`; neither returns data. -/
theorem base_pagination_not_implemented :
    ∀ (α β : Type) (b : BasePagination) (q : Query) (r : Request) (d : α),
      BasePagination.paginate_query β b q r
          = Except.error (PaginationError.notImplemented paginateQueryMessage) ∧
      BasePagination.get_paginated_response α β b d
          = Except.error
              (PaginationError.notImplemented getPaginatedResponseMessage) :=
  fun _ _ _ _ _ _ => ⟨rfl, rfl⟩

/-- Claim C10: the `NotImplementedError` messages are argument-independent
constants; `paginate_query`'s message names `paginate_queryset()` — not
the method's own name `paginate_query()` — while
`get_paginated_response`'s message names its own method correctly. -/
theorem base_pagination_messages :
    (∀ (β : Type) (b : BasePagination) (q : Query) (r : Request),
      BasePagination.paginate_query β b q r
          = Except.error (PaginationError.notImplemented
              "paginate_queryset() must be implemented.")) ∧
    (∀ (α β : Type) (b : BasePagination) (d : α),
      BasePagination.get_paginated_response α β b d
          = Except.error (PaginationError.notImplemented
              "get_paginated_response() must be implemented.")) ∧
    List.isPrefixOf "paginate_queryset()".data paginateQueryMessage.data
        = true ∧
    List.isPrefixOf "paginate_query()".data paginateQueryMessage.data
        = false ∧
    List.isPrefixOf "get_paginated_response()".data
        getPaginatedResponseMessage.data = true := by
  refine ⟨fun _ _ _ _ => rfl, fun _ _ _ _ => rfl, ?_, ?_, ?_⟩ <;> decide

end PyramidRestful
